/-
Verification of the bulk ingestion / matching / batch assembly pipeline of
TotalHealth-LOR-LOA-Generator-v2 (services/excel_processor.py), as a shallow
embedding in Lean 4.

Modelling conventions:
  * A spreadsheet cell is missing, a string, or a number (numbers are
    modelled as integers; no claim depends on float formatting).
  * Python truthiness of a cell value: a string is truthy iff non-empty,
    a number iff non-zero, None is falsy.
  * Python exceptions are modelled with Except; the external
    document-rendering collaborator is an abstract parameter
    `gen : String → DocumentPayload → String → Except String (String × String)`
    standing for generate_loa_documents / generate_lor_documents
    (document type passed first, signatory key last; blobs are strings).
  * core/models.py, services/event_matcher.py, config/settings.py and the
    generators are not part of the sources examined; the pieces of them
    that the pipeline calls are modelled from the spec and marked
    `Modelled from the spec:` in their doc comments.
-/
import Mathlib

namespace ExcelPipeline

/-- A spreadsheet cell: missing (NaN/None in pandas), a string, or a number. -/
inductive Cell where
  | missing : Cell
  | str (s : String) : Cell
  | num (n : Int) : Cell
deriving DecidableEq, Repr

/-- A Python value as returned by `_parse_row.get_value`: a string or a number. -/
inductive Val where
  | vs (s : String) : Val
  | vn (n : Int) : Val
deriving DecidableEq, Repr

/-- Python single-character `str.replace` (the pipeline only ever replaces the
single characters ' ' and '/' by '_'). -/
def pyReplaceChar (s : String) (a b : Char) : String :=
  String.mk (s.data.map (fun c => if c = a then b else c))

/-- Python string slice `s[:n]`: the first `n` characters. -/
def pyTake (s : String) (n : Nat) : String :=
  String.mk (s.data.take n)

/-- Python `str.strip`: drop whitespace from both ends. -/
def pyStrip (s : String) : String :=
  String.mk (((s.data.dropWhile Char.isWhitespace).reverse.dropWhile
    Char.isWhitespace).reverse)

/-- Python `str.lower`. -/
def pyLower (s : String) : String :=
  String.mk (s.data.map Char.toLower)

/-- Python `sep.join(parts)`. -/
def pyJoin (sep : String) : List String → String
  | [] => ""
  | [x] => x
  | x :: xs => x ++ sep ++ pyJoin sep xs

/-- Python truthiness of a `Val`: non-empty string / non-zero number. -/
def Val.truthy : Val → Bool
  | .vs s => !s.data.isEmpty
  | .vn n => n != 0

/-- Python `str(val)` on a `Val` (strings pass through, numbers are printed). -/
def Val.pyStr : Val → String
  | .vs s => s
  | .vn n => toString n

/-- Python `val == "0"` on a `Val` (a number never equals the string "0"). -/
def Val.eqStrZero : Val → Bool
  | .vs s => s == "0"
  | .vn _ => false

/-- Python truthiness of an optional value (`None` is falsy). -/
def optTruthy : Option Val → Bool
  | none => false
  | some v => v.truthy

/-- Python `a or b` where `a` is an optional value and `b` a `Val`. -/
def pyOr (a : Option Val) (b : Val) : Val :=
  match a with
  | some v => if v.truthy then v else b
  | none => b

/-- Python `str(a)` where `a` is an optional value (`str(None) = "None"`). -/
def pyStrOpt : Option Val → String
  | none => "None"
  | some v => v.pyStr

/-- Matched event dict built by `ExcelProcessor.match_events` (the five keys
written at excel_processor.py lines 177-183). -/
structure MatchedEvent where
  meeting_name : String
  meeting_date_long : String
  venue : String
  city_state : String
  event_year : Int
deriving DecidableEq, Repr

/-- Canonical registry event as consumed by the pipeline.
Modelled from the spec: the `Event` class lives in the external registry
(core/models.py, not among the examined sources); per spec §3 it carries a
display name, date text, venue, city/state and a year (`get_year`). -/
structure CanonicalEvent where
  meeting_name : String
  meeting_date_long : String
  venue : String
  city_state : String
  year : Int
deriving DecidableEq, Repr

/-- The `ExcelRow` record as built by `ExcelProcessor._parse_row`.
Modelled from the spec: core/models.py is not among the examined sources; per
spec §3 an `IngestedRow` has the raw fields below, an append-only ordered
`errors` list and an optional `matchedEvent`. Field names follow the keyword
arguments used at excel_processor.py lines 130-143. -/
structure ExcelRow where
  exhibitor_invite : Val
  event_name : Val
  total : String
  company_name : Option Val := none
  expected_attendance : Option Val := none
  date : Option Val := none
  city : Option Val := none
  venue : Option Val := none
  official_address : Option Val := none
  amount : Option Val := none
  discount : Option Val := none
  row_number : Nat := 0
  errors : List String := []
  matched_event : Option MatchedEvent := none
deriving DecidableEq, Repr

/-- Embedding of `ExcelRow.add_error`. Modelled from the spec: errors are an append-only
ordered list of strings (spec §3, §9). -/
def ExcelRow.add_error (r : ExcelRow) (e : String) : ExcelRow :=
  { r with errors := r.errors ++ [e] }

/-- Embedding of `ExcelRow.has_errors`. Modelled from the spec: "downstream stages check
whether a row is clean as a pure predicate" — true iff `errors` is non-empty. -/
def ExcelRow.has_errors (r : ExcelRow) : Bool :=
  !r.errors.isEmpty

/-- The table `ExcelProcessor.COLUMN_MAPPINGS` (excel_processor.py lines 35-49),
in Python dict insertion order. -/
def COLUMN_MAPPINGS : List (String × List String) :=
  [ ("exhibitor_invite", ["exhibitor invite", "company", "company name", "exhibitor"]),
    ("event_name", ["event name", "event", "meeting name", "meeting"]),
    ("total", ["total", "amount", "total amount", "price"]),
    ("expected_attendance", ["expected attendance", "attendance", "attendees"]),
    ("date", ["date", "meeting date", "event date"]),
    ("city", ["city", "location"]),
    ("venue", ["venue", "location"]),
    ("official_address", ["official address", "address", "company address"]),
    ("amount", ["amount", "booth amount"]),
    ("discount", ["discount"]) ]

/-- The accepted header synonyms of a canonical field. -/
def variationsOf (field : String) : List String :=
  (COLUMN_MAPPINGS.lookup field).getD []

/-- Inner loops of `ExcelProcessor._build_column_map`: for each canonical
field, in mapping order, the first column whose (already normalized) name is
among the field's variations is recorded; fields with no match are absent. -/
def buildColumnMapGo (columns : List String) :
    List (String × List String) → List (String × String)
  | [] => []
  | (field, vars) :: rest =>
    match columns.find? (fun c => vars.contains c) with
    | some c => (field, c) :: buildColumnMapGo columns rest
    | none => buildColumnMapGo columns rest

/-- Embedding of `ExcelProcessor._build_column_map` (excel_processor.py lines 97-108). -/
def build_column_map (columns : List String) : List (String × String) :=
  buildColumnMapGo columns COLUMN_MAPPINGS

/-- The `get_value` closure of `_parse_row` (excel_processor.py lines 114-122):
look the field up in the column map, fetch the cell, return the default on a
missing column or NaN cell, strip strings, pass numbers through. -/
def get_value (rowf : String → Cell) (cm : List (String × String))
    (field : String) (dflt : Option Val) : Option Val :=
  match cm.lookup field with
  | none => dflt
  | some col =>
    match rowf col with
    | .missing => dflt
    | .str s => some (.vs (pyStrip s))
    | .num n => some (.vn n)

/-- Embedding of `ExcelProcessor._parse_row` (excel_processor.py lines 110-153): extract
required fields with their defaults, extract every optional field, then append
one validation error per missing required field. -/
def parse_row (rowf : String → Cell) (cm : List (String × String))
    (row_number : Nat) : ExcelRow :=
  let exhibitor := (get_value rowf cm "exhibitor_invite" (some (.vs ""))).getD (.vs "")
  let event := (get_value rowf cm "event_name" (some (.vs ""))).getD (.vs "")
  let total := (get_value rowf cm "total" (some (.vs "0"))).getD (.vs "0")
  let r : ExcelRow :=
    { exhibitor_invite := exhibitor
      event_name := event
      total := total.pyStr
      company_name := get_value rowf cm "exhibitor_invite" none
      expected_attendance := get_value rowf cm "expected_attendance" none
      date := get_value rowf cm "date" none
      city := get_value rowf cm "city" none
      venue := get_value rowf cm "venue" none
      official_address := get_value rowf cm "official_address" none
      amount := get_value rowf cm "amount" none
      discount := get_value rowf cm "discount" none
      row_number := row_number }
  let r := if exhibitor.truthy then r else r.add_error "Missing company name"
  let r := if event.truthy then r else r.add_error "Missing event name"
  if !total.truthy || total.eqStrZero then r.add_error "Missing or invalid total" else r

/-- Per-row body of `ExcelProcessor.match_events` (excel_processor.py lines
168-186). `find` abstracts `EventMatcher.find_best_match` (the matcher itself
lives in services/event_matcher.py, outside the examined sources; per spec
§4.3 it returns the best registry candidate clearing the acceptance threshold,
or nothing). An empty event name gets "No event name provided"; an unmatched
one gets "Could not match event: <text>"; a match fills `matched_event`. -/
def match_row (find : Val → List CanonicalEvent → Option CanonicalEvent)
    (events : List CanonicalEvent) (r : ExcelRow) : ExcelRow :=
  if !r.event_name.truthy then r.add_error "No event name provided"
  else
    match find r.event_name events with
    | some m =>
      let me : MatchedEvent :=
        { meeting_name := m.meeting_name
          meeting_date_long := m.meeting_date_long
          venue := m.venue
          city_state := m.city_state
          event_year := m.year }
      { r with matched_event := some me }
    | none => r.add_error ("Could not match event: " ++ r.event_name.pyStr)

/-- Embedding of `ExcelProcessor.match_events` (excel_processor.py lines 155-187). -/
def match_events (find : Val → List CanonicalEvent → Option CanonicalEvent)
    (events : List CanonicalEvent) (rows : List ExcelRow) : List ExcelRow :=
  rows.map (match_row find events)

/-- Digit string to natural number (helper for monetary parsing). -/
def digitsToNat (l : List Char) : Nat :=
  l.foldl (fun a c => a * 10 + (c.toNat - 48)) 0

/-- Split a character list at the dot separators (Python `str.split('.')`,
restricted to what monetary parsing needs). -/
def splitOnDotAux : List Char → List Char → List (List Char)
  | [], acc => [acc.reverse]
  | c :: cs, acc =>
    if c = '.' then acc.reverse :: splitOnDotAux cs []
    else splitOnDotAux cs (c :: acc)

/-- Embedding of `ExcelRow.get_total_amount`.
Modelled from the spec: core/models.py is not among the examined sources; per
spec §4.3 monetary text is parsed by stripping currency symbols and grouping
separators and converting to a decimal amount, and malformed totals (no
extractable digits, or text that still fails numeric conversion) fail rather
than defaulting to zero. Failure is `none`; the batch step turns it into a
row-local generation error. -/
def get_total_amount (s : String) : Option ℚ :=
  let cleaned := s.data.filter (fun c => c.isDigit || c == '.')
  if cleaned.any Char.isDigit && cleaned.count '.' ≤ 1 then
    match splitOnDotAux cleaned [] with
    | [i] => some (digitsToNat i)
    | [i, f] => some ((digitsToNat i : ℚ) + (digitsToNat f : ℚ) / (10 ^ f.length))
    | _ => none
  else none

/-- The error text produced when a row's total cannot be converted. -/
def totalValueError (s : String) : String :=
  "could not convert string to float: " ++ s

/-- Signatory roster entry. Modelled from the spec: `AUTHORIZED_SIGNATORIES`
(config/settings.py) is a fixed mapping from key to a name/title pair
(spec §6); the batch step renders it as "name - title". -/
structure Signatory where
  name : String
  title : String
deriving DecidableEq, Repr

/-- The `DEFAULT_AUDIENCE` constant. Modelled from the spec: a global default audience list
(config/settings.py), passed through into every payload unchanged. -/
def DEFAULT_AUDIENCE : String := "DEFAULT_AUDIENCE"

/-- The `DocumentPayload` fields as populated by the batch step
(excel_processor.py lines 230-244). Modelled from the spec: the class itself
is in core/models.py, outside the examined sources. -/
structure DocumentPayload where
  company_name : Val
  company_address : Val
  meeting_name : String
  meeting_date_long : String
  venue : String
  city_state : String
  final_total : ℚ
  amount_currency : String
  document_type : String
  signature_person : Option String
  attendance_expected : Option Val
  audience_list : String
  event_year : Int
deriving DecidableEq, Repr

/-- The resolution error raised for an LOA payload without an address. -/
def loaAddressError : String := "Company address is required for LOA documents"

/-- Validation applied at `DocumentPayload` construction. Modelled from the spec: core/models.py is
not among the examined sources; per spec §4.4 / §7, the address is required
and must be non-empty when the document type is LOA, and its absence is a
row-local resolution-time error (an exception caught by the batch step). -/
def DocumentPayload.make (p : DocumentPayload) : Except String DocumentPayload :=
  if p.document_type == "LOA" && !p.company_address.truthy then
    .error loaAddressError
  else .ok p

/-- The try-block of one batch iteration (excel_processor.py lines 225-264):
resolve the signatory, the numeric total and the payload; call the rendering
collaborator `gen`; compute the sanitized slugs; return the base filename and
the two blobs. `sigOf` abstracts `AUTHORIZED_SIGNATORIES.get(key, sarah)`.
Any failure is the message of the caught exception. -/
def tryRow (gen : String → DocumentPayload → String → Except String (String × String))
    (sigOf : String → Signatory) (dt sk : String) (r : ExcelRow)
    (me : MatchedEvent) : Except String (String × String × String) := do
  let si := sigOf sk
  let signature_person := si.name ++ " - " ++ si.title
  let final_total ←
    match get_total_amount r.total with
    | some q => Except.ok q
    | none => Except.error (totalValueError r.total)
  let payload ← DocumentPayload.make
    { company_name := pyOr r.company_name r.exhibitor_invite
      company_address := pyOr r.official_address (.vs "")
      meeting_name := me.meeting_name
      meeting_date_long := me.meeting_date_long
      venue := me.venue
      city_state := me.city_state
      final_total := final_total
      amount_currency := r.total
      document_type := dt
      signature_person := if dt == "LOA" then some signature_person else none
      attendance_expected := r.expected_attendance
      audience_list := DEFAULT_AUDIENCE
      event_year := me.event_year }
  let blobs ← gen dt payload sk
  let company_slug ←
    match r.company_name with
    | some (.vs s) =>
      Except.ok (pyTake (pyReplaceChar (pyReplaceChar s ' ' '_') '/' '_') 50)
    | some (.vn _) => Except.error "int object has no attribute replace"
    | none => Except.error "NoneType object has no attribute replace"
  let event_slug :=
    pyReplaceChar (pyReplaceChar (pyTake me.meeting_name 30) ' ' '_') '/' '_'
  let base_name := dt ++ "_" ++ company_slug ++ "_" ++ event_slug
  Except.ok (base_name, blobs.1, blobs.2)

/-- One iteration of the loop of `ExcelProcessor.generate_batch_documents`
(excel_processor.py lines 215-268): a row with errors or without a matched
event is counted as a failure and skipped; otherwise the try-block runs, a
success writes `base.docx` and `base.pdf` into the archive, a caught
exception appends "Generation failed: <msg>" to the row and counts a
failure. Result: (archive entries, success increment, error increment,
the row as left by the iteration). -/
def processRow (gen : String → DocumentPayload → String → Except String (String × String))
    (sigOf : String → Signatory) (dt sk : String) (r : ExcelRow) :
    List (String × String) × Nat × Nat × ExcelRow :=
  if r.has_errors then ([], 0, 1, r)
  else
    match r.matched_event with
    | none => ([], 0, 1, r)
    | some me =>
      match tryRow gen sigOf dt sk r me with
      | .ok (base_name, docx, pdf) =>
        ([(base_name ++ ".docx", docx), (base_name ++ ".pdf", pdf)], 1, 0, r)
      | .error msg => ([], 0, 1, r.add_error ("Generation failed: " ++ msg))

/-- Embedding of `ExcelProcessor.generate_batch_documents` (excel_processor.py lines
189-271), rows processed in order; returns (archive entries in write order,
success_count, error_count, the rows as mutated by the loop). -/
def generate_batch_documents
    (gen : String → DocumentPayload → String → Except String (String × String))
    (sigOf : String → Signatory) (dt sk : String) :
    List ExcelRow → List (String × String) × Nat × Nat × List ExcelRow
  | [] => ([], 0, 0, [])
  | r :: rs =>
    let head := processRow gen sigOf dt sk r
    let rest := generate_batch_documents gen sigOf dt sk rs
    (head.1 ++ rest.1, head.2.1 + rest.2.1, head.2.2.1 + rest.2.2.1,
      head.2.2.2 :: rest.2.2.2)

/-- An uploaded table: header cells and data rows (data cells positional,
aligned with the headers), per the tabular-upload interface of spec §6. -/
structure Table where
  headers : List String
  records : List (List Cell)
deriving Repr

/-- Header normalization of `parse_excel_file` (excel_processor.py line 70):
lowercase then strip. -/
def normHeader (s : String) : String := pyStrip (pyLower s)

/-- A data row as a pandas-like series over the (normalized) headers:
a column absent from the row reads as missing. -/
def seriesOf (hs : List String) (cs : List Cell) (col : String) : Cell :=
  ((hs.zip cs).lookup col).getD .missing

/-- The per-row parser the ingestion loop runs inside its try/except. In the
source it is `_parse_row`, which can in principle raise; the loop is therefore
embedded over an abstract fallible parser, instantiated with `parse_row` (which
never fails) for the concrete pipeline. -/
def RowParser : Type :=
  (String → Cell) → List (String × String) → Nat → Except String ExcelRow

/-- The function `parse_row` as a `RowParser` (the concrete `_parse_row` raises nothing). -/
def parseRowOk : RowParser := fun rowf cm n => .ok (parse_row rowf cm n)

/-- The row loop of `parse_excel_file` (excel_processor.py lines 84-90):
each record is parsed with Excel row number idx+2; a parser failure appends
"Row <n>: <msg>" to the errors and omits the row. -/
def parseRowsLoop (rowParse : RowParser) (hs : List String)
    (cm : List (String × String)) : Nat → List (List Cell) →
    List ExcelRow × List String
  | _, [] => ([], [])
  | idx, cs :: rest =>
    let restRes := parseRowsLoop rowParse hs cm (idx + 1) rest
    match rowParse (seriesOf hs cs) cm (idx + 2) with
    | .ok r => (r :: restRes.1, restRes.2)
    | .error e => (restRes.1, ("Row " ++ toString (idx + 2) ++ ": " ++ e) :: restRes.2)

/-- The required canonical fields (excel_processor.py line 76). -/
def requiredFields : List String := ["exhibitor_invite", "event_name", "total"]

/-- Embedding of `ExcelProcessor.parse_excel_file` (excel_processor.py lines 51-95): a file
that fails to read yields no rows and one "Failed to read Excel file" error;
otherwise headers are normalized, the column map built, and if any required
field is unmapped the function returns no rows and the single structural
error; otherwise every record is parsed in order. -/
def parse_excel_file (rowParse : RowParser) (file_obj : Except String Table) :
    List ExcelRow × List String :=
  match file_obj with
  | .error e => ([], ["Failed to read Excel file: " ++ e])
  | .ok t =>
    let cols := t.headers.map normHeader
    let cm := build_column_map cols
    let missing := requiredFields.filter (fun c => (cm.lookup c).isNone)
    if missing.isEmpty then parseRowsLoop rowParse cols cm 0 t.records
    else ([], ["Missing required columns: " ++ pyJoin ", " missing])

/-- One error block of `generate_validation_report` (excel_processor.py lines
351-355): the row header line, one line per error, one blank line. -/
def report_error_block (r : ExcelRow) : List String :=
  ("**Row " ++ toString r.row_number ++ "**: " ++ (pyOr r.company_name r.exhibitor_invite).pyStr)
    :: (r.errors.map (fun e => "  - " ++ e) ++ [""])

/-- One valid-row line of `generate_validation_report` (excel_processor.py
line 360); the separator glyph of the source line is transcribed as an arrow. -/
def report_valid_line (r : ExcelRow) : String :=
  "- **" ++ pyStrOpt r.company_name ++ "** → " ++
    (match r.matched_event with
     | some me => me.meeting_name
     | none => "No match")

/-- The lines of `generate_validation_report` (excel_processor.py lines
329-365): header and counts; all error rows, each as a block; then at most the
first 10 valid rows, with a "... and N more" line when more than 10 exist. -/
def report_lines (rows : List ExcelRow) : List String :=
  let valid_rows := rows.filter (fun r => !r.has_errors)
  let error_rows := rows.filter (fun r => r.has_errors)
  let ls := ["# Validation Report\n"]
  let ls := ls ++
    ["**Total Rows**: " ++ toString rows.length,
     "**Valid Rows**: " ++ toString valid_rows.length,
     "**Rows with Errors**: " ++ toString error_rows.length ++ "\n"]
  let ls := if !error_rows.isEmpty then
      ls ++ ["## Errors\n"] ++ error_rows.flatMap report_error_block
    else ls
  if !valid_rows.isEmpty then
    ls ++ ["## Valid Rows (Ready to Generate)\n"]
       ++ (valid_rows.take 10).map report_valid_line
       ++ (if valid_rows.length > 10 then
             ["\n... and " ++ toString (valid_rows.length - 10) ++ " more"]
           else [])
  else ls

/-- Embedding of `generate_validation_report` (excel_processor.py lines 329-365). -/
def generate_validation_report (rows : List ExcelRow) : String :=
  pyJoin "\n" (report_lines rows)

/-! ### Concrete inputs used by counterexamples and witnesses -/

/-- An error-free matched row (one of 11) for exercising report truncation. -/
def c3row (i : Nat) : ExcelRow :=
  { exhibitor_invite := .vs ("Co" ++ toString i)
    event_name := .vs "Event"
    total := "100"
    company_name := some (.vs ("Co" ++ toString i))
    row_number := i + 2
    matched_event := some
      { meeting_name := "Event", meeting_date_long := "Jan 1, 2025",
        venue := "V", city_state := "C, S", event_year := 2025 } }

/-- Eleven error-free matched rows. -/
def c3rows : List ExcelRow := (List.range 11).map c3row

/-- A rendering collaborator that always succeeds with fixed blobs. -/
def genOk : String → DocumentPayload → String → Except String (String × String) :=
  fun _ _ _ => .ok ("DOCX", "PDF")

/-- A fixed signatory roster lookup. -/
def sigSarah : String → Signatory := fun _ => { name := "Sarah", title := "Director" }

/-- A table whose headers resolve company and event but no total synonym. -/
def tNoTotal : Table :=
  { headers := ["Company", "Event Name"]
    records := [[Cell.str "Acme", Cell.str "ASCO 2025"]] }

/-- Two error-free matched rows with identical company and event names. -/
def c6row (n : Nat) : ExcelRow :=
  { exhibitor_invite := .vs "Acme Inc"
    event_name := .vs "ASCO 2025"
    total := "5000"
    company_name := some (.vs "Acme Inc")
    row_number := n
    matched_event := some
      { meeting_name := "ASCO 2025", meeting_date_long := "Jan 1, 2025",
        venue := "V", city_state := "Chicago, IL", event_year := 2025 } }

/-- A series over the three required columns with a digitless total cell. -/
def rowfAbc : String → Cell :=
  seriesOf ["exhibitor invite", "event name", "total"]
    [Cell.str "Acme", Cell.str "ASCO 2025", Cell.str "abc"]

/-- The column map of the plain three-header table. -/
def cmPlain : List (String × String) :=
  build_column_map ["exhibitor invite", "event name", "total"]

/-- An error-free matched LOA candidate row with no address. -/
def c5row : ExcelRow :=
  { exhibitor_invite := .vs "Acme Inc"
    event_name := .vs "ASCO 2025"
    total := "5000"
    company_name := some (.vs "Acme Inc")
    official_address := none
    row_number := 2
    matched_event := some
      { meeting_name := "ASCO 2025", meeting_date_long := "Jan 1, 2025",
        venue := "V", city_state := "Chicago, IL", event_year := 2025 } }

/-- A row with empty event text (for the matching-error claims). -/
def c9row : ExcelRow :=
  { exhibitor_invite := .vs "Acme Inc", event_name := .vs "", total := "5000" }

/-- A series with a blank company cell, a present event and a missing total. -/
def rowfBlank : String → Cell :=
  seriesOf ["exhibitor invite", "event name", "total"]
    [Cell.str "", Cell.str "ASCO 2025", Cell.missing]

/-- A row with a non-empty event text no registry candidate matches. -/
def c9row2 : ExcelRow :=
  { exhibitor_invite := .vs "Acme Inc", event_name := .vs "Mystery Meet", total := "5000" }

/-- An error-free matched row whose total text has no digits. -/
def c4genrow : ExcelRow :=
  { exhibitor_invite := .vs "Acme Inc"
    event_name := .vs "ASCO 2025"
    total := "abc"
    company_name := some (.vs "Acme Inc")
    row_number := 2
    matched_event := some
      { meeting_name := "ASCO 2025", meeting_date_long := "Jan 1, 2025",
        venue := "V", city_state := "Chicago, IL", event_year := 2025 } }

/-- A row parser failing on Excel row 2 only (models `_parse_row` raising). -/
def rpFail : RowParser := fun rowf cm n =>
  if n = 2 then .error "boom" else .ok (parse_row rowf cm n)

/-- A well-formed two-record table for the ingestion-safety witness. -/
def tTwoRows : Table :=
  { headers := ["Company", "Event", "Total"]
    records := [[Cell.str "A", Cell.str "E1", Cell.str "10"],
                [Cell.str "B", Cell.str "E2", Cell.str "20"]] }

/-! ### Helper lemmas about the batch loop -/

/-- A row carrying errors is skipped unchanged: no entries, no success, one
failure, row untouched, for every rendering collaborator. -/
lemma processRow_of_has_errors (gen : String → DocumentPayload → String → Except String (String × String))
    (sigOf : String → Signatory) (dt sk : String) (r : ExcelRow)
    (h : r.has_errors = true) : processRow gen sigOf dt sk r = ([], 0, 1, r) := by
  simp [processRow, h]

/-- Each loop iteration increments exactly one of the two counters. -/
lemma processRow_counts (gen : String → DocumentPayload → String → Except String (String × String))
    (sigOf : String → Signatory) (dt sk : String) (r : ExcelRow) :
    (processRow gen sigOf dt sk r).2.1 + (processRow gen sigOf dt sk r).2.2.1 = 1 := by
  unfold processRow
  split
  · rfl
  · split
    · rfl
    · split <;> rfl

/-- Each loop iteration writes twice its success increment into the archive. -/
lemma processRow_entries_len (gen : String → DocumentPayload → String → Except String (String × String))
    (sigOf : String → Signatory) (dt sk : String) (r : ExcelRow) :
    (processRow gen sigOf dt sk r).1.length = 2 * (processRow gen sigOf dt sk r).2.1 := by
  unfold processRow
  split
  · rfl
  · split
    · rfl
    · split <;> rfl

/-! ### C1 -/

/-- C1: a row whose errors list is non-empty never reaches document
generation. For every rendering collaborator and batch call, the archive
entries and success count of the batch equal those of the batch run on the
rows with no errors only (so error-carrying rows are never resolved or handed
to the collaborator and produce no archive entry), and the error count is the
number of error-carrying rows plus the failures among the clean ones. -/
theorem c1_rows_with_errors_never_generated
    (gen : String → DocumentPayload → String → Except String (String × String))
    (sigOf : String → Signatory) (dt sk : String) (rows : List ExcelRow) :
    (generate_batch_documents gen sigOf dt sk rows).1 =
      (generate_batch_documents gen sigOf dt sk (rows.filter (fun r => !r.has_errors))).1 ∧
    (generate_batch_documents gen sigOf dt sk rows).2.1 =
      (generate_batch_documents gen sigOf dt sk (rows.filter (fun r => !r.has_errors))).2.1 ∧
    (generate_batch_documents gen sigOf dt sk rows).2.2.1 =
      (rows.filter (fun r => r.has_errors)).length +
      (generate_batch_documents gen sigOf dt sk (rows.filter (fun r => !r.has_errors))).2.2.1 := by
  induction rows with
  | nil => simp [generate_batch_documents]
  | cons r rs ih =>
    by_cases h : r.has_errors
    · have hp := processRow_of_has_errors gen sigOf dt sk r h
      have h1 : List.filter (fun r => !r.has_errors) (r :: rs) =
          List.filter (fun r => !r.has_errors) rs := by simp [List.filter_cons, h]
      have h2 : List.filter (fun r => r.has_errors) (r :: rs) =
          r :: List.filter (fun r => r.has_errors) rs := by simp [List.filter_cons, h]
      rw [h1, h2]
      simp only [generate_batch_documents, hp, List.nil_append, List.length_cons]
      refine ⟨by simpa using ih.1, by simpa using ih.2.1, ?_⟩
      have h3 := ih.2.2
      omega
    · have h1 : List.filter (fun r => !r.has_errors) (r :: rs) =
          r :: List.filter (fun r => !r.has_errors) rs := by simp [List.filter_cons, h]
      have h2 : List.filter (fun r => r.has_errors) (r :: rs) =
          List.filter (fun r => r.has_errors) rs := by simp [List.filter_cons, h]
      rw [h1, h2]
      simp only [generate_batch_documents]
      refine ⟨by rw [ih.1], by rw [ih.2.1], ?_⟩
      have h3 := ih.2.2
      omega

/-! ### C3 -/

/-- A report error block has one header line, one line per error, one blank. -/
lemma length_report_error_block (r : ExcelRow) :
    (report_error_block r).length = 2 + r.errors.length := by
  simp [report_error_block]
  omega

/-- C3 (amended): for every batch, the archive holds exactly `2 * success_count`
entries and `success_count + error_count` equals the input row count; and for
every row list handed to the validation report, the report devotes one block of
`2 + |errors|` lines to every failed row but lists only the first 10 error-free
rows (one line each, plus one summary line when more than 10 exist) — so the
report does not contain an entry for every input row once successes exceed 10. -/
theorem c3_archive_counts_and_report_truncation
    (gen : String → DocumentPayload → String → Except String (String × String))
    (sigOf : String → Signatory) (dt sk : String) (rows rows₂ : List ExcelRow) :
    (generate_batch_documents gen sigOf dt sk rows).1.length =
      2 * (generate_batch_documents gen sigOf dt sk rows).2.1 ∧
    (generate_batch_documents gen sigOf dt sk rows).2.1 +
      (generate_batch_documents gen sigOf dt sk rows).2.2.1 = rows.length ∧
    (report_lines rows₂).length =
      4 + (if (rows₂.filter (fun r => r.has_errors)).isEmpty then 0
           else 1 + ((rows₂.filter (fun r => r.has_errors)).map
                       (fun r => 2 + r.errors.length)).sum)
        + (if (rows₂.filter (fun r => !r.has_errors)).isEmpty then 0
           else 1 + min 10 (rows₂.filter (fun r => !r.has_errors)).length
             + (if 10 < (rows₂.filter (fun r => !r.has_errors)).length then 1 else 0)) := by
  refine ⟨?_, ?_, ?_⟩
  · induction rows with
    | nil => simp [generate_batch_documents]
    | cons r rs ih =>
      simp only [generate_batch_documents, List.length_append]
      rw [processRow_entries_len, ih]
      ring
  · induction rows with
    | nil => simp [generate_batch_documents]
    | cons r rs ih =>
      simp only [generate_batch_documents, List.length_cons]
      have h1 := processRow_counts gen sigOf dt sk r
      omega
  · unfold report_lines
    by_cases he : (rows₂.filter (fun r => r.has_errors)).isEmpty <;>
      by_cases hv : (rows₂.filter (fun r => !r.has_errors)).isEmpty <;>
        by_cases h10 : 10 < (rows₂.filter (fun r => !r.has_errors)).length <;>
          simp [he, hv, h10, List.length_flatMap, List.length_take,
            Function.comp_def, length_report_error_block] <;> omega

/-- C3 is false as stated: with 11 successful rows, `success_count = 11` and
the archive holds 22 entries, but the validation report built from the rows
the batch returns contains no entry for the 11th row (its valid-row line is
absent from the report). -/
theorem c3_counterexample_report_misses_row_11 :
    c3rows.length = 11 ∧
    (generate_batch_documents genOk sigSarah "LOR" "sarah" c3rows).2.1 = 11 ∧
    (generate_batch_documents genOk sigSarah "LOR" "sarah" c3rows).1.length = 22 ∧
    (c3row 10) ∈ c3rows ∧
    (c3row 10).has_errors = false ∧
    report_valid_line (c3row 10) ∉
      report_lines (generate_batch_documents genOk sigSarah "LOR" "sarah" c3rows).2.2.2 := by
  decide

/-! ### C6 -/

/-- C6 fails on the code: two successful rows with identical sanitized company
and event slugs are written under the very same entry names — the batch of two
identical "Acme Inc" / "ASCO 2025" rows succeeds twice (4 entries) but the
archive entry names are pairwise colliding duplicates, not distinct. -/
theorem c6_colliding_slugs_produce_duplicate_entry_names :
    (generate_batch_documents genOk sigSarah "LOR" "sarah" [c6row 2, c6row 3]).2.1 = 2 ∧
    (generate_batch_documents genOk sigSarah "LOR" "sarah" [c6row 2, c6row 3]).1.map Prod.fst =
      ["LOR_Acme_Inc_ASCO_2025.docx", "LOR_Acme_Inc_ASCO_2025.pdf",
       "LOR_Acme_Inc_ASCO_2025.docx", "LOR_Acme_Inc_ASCO_2025.pdf"] ∧
    ¬ ((generate_batch_documents genOk sigSarah "LOR" "sarah"
        [c6row 2, c6row 3]).1.map Prod.fst).Nodup := by
  decide

/-! ### Column-map lookup characterization (C7, C2) -/

/-- A field not among the keys is absent from the built column map. -/
lemma buildColumnMapGo_lookup_none (columns : List String) :
    ∀ (ms : List (String × List String)) (f : String),
      f ∉ ms.map Prod.fst → (buildColumnMapGo columns ms).lookup f = none := by
  intro ms
  induction ms with
  | nil => intro f _; simp [buildColumnMapGo]
  | cons p rest ih =>
    intro f hf
    obtain ⟨g, gv⟩ := p
    simp only [List.map_cons, List.mem_cons, not_or] at hf
    simp only [buildColumnMapGo]
    cases h : columns.find? (fun c => gv.contains c) with
    | none => exact ih f hf.2
    | some c =>
      simp only [List.lookup]
      have : (f == g) = false := by
        simp only [beq_eq_false_iff_ne, ne_eq]
        exact hf.1
      rw [this]
      exact ih f hf.2

/-- With pairwise-distinct keys, looking a field up in the built column map
yields exactly the first column whose name is among the field's variations. -/
lemma buildColumnMapGo_lookup (columns : List String) :
    ∀ (ms : List (String × List String)) (f : String) (vars : List String),
      (ms.map Prod.fst).Nodup → (f, vars) ∈ ms →
      (buildColumnMapGo columns ms).lookup f =
        columns.find? (fun c => vars.contains c) := by
  intro ms
  induction ms with
  | nil => intro f vars _ hmem; simp at hmem
  | cons p rest ih =>
    intro f vars hnd hmem
    obtain ⟨g, gv⟩ := p
    simp only [List.map_cons, List.nodup_cons] at hnd
    rcases List.mem_cons.mp hmem with heq | hrest
    · injection heq with hf hv
      subst hf; subst hv
      simp only [buildColumnMapGo]
      cases h : columns.find? (fun c => vars.contains c) with
      | none => exact buildColumnMapGo_lookup_none columns rest f hnd.1
      | some c => simp [List.lookup]
    · have hg : g ≠ f := by
        intro h; exact hnd.1 (h ▸ (List.mem_map.mpr ⟨(f, vars), hrest, rfl⟩))
      simp only [buildColumnMapGo]
      cases h : columns.find? (fun c => gv.contains c) with
      | none => exact ih f vars hnd.2 hrest
      | some c =>
        simp only [List.lookup]
        have : (f == g) = false := by
          simp only [beq_eq_false_iff_ne, ne_eq]
          exact fun hh => hg hh.symm
        rw [this]
        exact ih f vars hnd.2 hrest

/-! ### C7 -/

/-- C7 is false as stated: the column "location" is simultaneously assigned to
the two different canonical fields `city` and `venue` — a first successful
match does not consume the header. -/
theorem c7_counterexample_header_not_consumed :
    (build_column_map ["location"]).lookup "city" = some "location" ∧
    (build_column_map ["location"]).lookup "venue" = some "location" ∧
    "city" ≠ "venue" := by
  decide

/-- C7 (amended): schema resolution assigns each canonical field the first
header in table-column order that matches one of its accepted synonyms, each
field independently of the others — a header matched by one field is not
consumed and may also be assigned to another canonical field. -/
theorem c7_first_matching_header_per_field
    (columns : List String) (f : String) (vars : List String)
    (hmem : (f, vars) ∈ COLUMN_MAPPINGS) :
    (build_column_map columns).lookup f =
      columns.find? (fun c => vars.contains c) := by
  exact buildColumnMapGo_lookup columns COLUMN_MAPPINGS f vars (by decide) hmem

/-- C7 witness: for the company field over headers ["company", "exhibitor
invite"], the first header in column order wins. -/
theorem c7_first_matching_header_per_field_witness :
    ("exhibitor_invite", ["exhibitor invite", "company", "company name", "exhibitor"])
        ∈ COLUMN_MAPPINGS ∧
    (build_column_map ["company", "exhibitor invite"]).lookup "exhibitor_invite" =
      ["company", "exhibitor invite"].find?
        (fun c => ["exhibitor invite", "company", "company name", "exhibitor"].contains c) :=
  ⟨by decide, c7_first_matching_header_per_field ["company", "exhibitor invite"]
    "exhibitor_invite" ["exhibitor invite", "company", "company name", "exhibitor"]
    (by decide)⟩

/-! ### C2 -/

/-- C2: if any required canonical field has no header matching any accepted
synonym, ingestion fails structurally: the missing-field set computed by the
code is exactly the set of required fields with no matching header, the call
returns an empty row list with that single structural error, and no per-row
processing happens (the result is independent of the row parser). -/
theorem c2_missing_required_columns_fail_fast
    (rowParse rowParse' : RowParser) (t : Table)
    (h : ∃ f ∈ requiredFields, ∀ c ∈ t.headers.map normHeader,
      (variationsOf f).contains c = false) :
    (∀ f, f ∈ requiredFields.filter
        (fun c => ((build_column_map (t.headers.map normHeader)).lookup c).isNone) ↔
      (f ∈ requiredFields ∧ ∀ c ∈ t.headers.map normHeader,
        (variationsOf f).contains c = false)) ∧
    parse_excel_file rowParse (Except.ok t) =
      ([], ["Missing required columns: " ++ pyJoin ", " (requiredFields.filter
        (fun c => ((build_column_map (t.headers.map normHeader)).lookup c).isNone))]) ∧
    parse_excel_file rowParse' (Except.ok t) = parse_excel_file rowParse (Except.ok t) := by
  have key : ∀ f ∈ requiredFields,
      (build_column_map (t.headers.map normHeader)).lookup f =
        (t.headers.map normHeader).find? (fun c => (variationsOf f).contains c) := by
    intro f hf
    simp only [requiredFields, List.mem_cons, List.mem_singleton] at hf
    rcases hf with rfl | rfl | rfl | hf
    · exact buildColumnMapGo_lookup _ COLUMN_MAPPINGS _ _ (by decide) (by decide)
    · exact buildColumnMapGo_lookup _ COLUMN_MAPPINGS _ _ (by decide) (by decide)
    · exact buildColumnMapGo_lookup _ COLUMN_MAPPINGS _ _ (by decide) (by decide)
    · simp at hf
  have hchar : ∀ f, f ∈ requiredFields.filter
      (fun c => ((build_column_map (t.headers.map normHeader)).lookup c).isNone) ↔
      (f ∈ requiredFields ∧ ∀ c ∈ t.headers.map normHeader,
        (variationsOf f).contains c = false) := by
    intro f
    rw [List.mem_filter]
    constructor
    · rintro ⟨hf, hnone⟩
      refine ⟨hf, ?_⟩
      rw [key f hf, Option.isNone_iff_eq_none, List.find?_eq_none] at hnone
      intro c hc
      simpa using hnone c hc
    · rintro ⟨hf, hall⟩
      refine ⟨hf, ?_⟩
      rw [key f hf, Option.isNone_iff_eq_none, List.find?_eq_none]
      intro c hc
      simpa using hall c hc
  have hne : (requiredFields.filter
      (fun c => ((build_column_map (t.headers.map normHeader)).lookup c).isNone)).isEmpty
        = false := by
    obtain ⟨f, hf, hall⟩ := h
    have : f ∈ requiredFields.filter
        (fun c => ((build_column_map (t.headers.map normHeader)).lookup c).isNone) :=
      (hchar f).mpr ⟨hf, hall⟩
    rcases hx : requiredFields.filter
        (fun c => ((build_column_map (t.headers.map normHeader)).lookup c).isNone) with
      _ | ⟨a, l⟩
    · rw [hx] at this; simp at this
    · simp
  refine ⟨hchar, ?_, ?_⟩
  · simp only [parse_excel_file, hne, if_false, Bool.false_eq_true]
  · simp only [parse_excel_file, hne, if_false, Bool.false_eq_true]

/-- C2 witness: a table with company and event headers but no total synonym
fails fast with the single structural error naming "total". -/
theorem c2_missing_required_columns_fail_fast_witness :
    (∃ f ∈ requiredFields, ∀ c ∈ tNoTotal.headers.map normHeader,
      (variationsOf f).contains c = false) ∧
    parse_excel_file parseRowOk (Except.ok tNoTotal) =
      ([], ["Missing required columns: total"]) := by
  refine ⟨⟨"total", by decide, by decide⟩, ?_⟩
  have h := (c2_missing_required_columns_fail_fast parseRowOk parseRowOk tNoTotal
    ⟨"total", by decide, by decide⟩).2.1
  rw [h]
  rfl

/-! ### C8 -/

/-- C8: when two or more of the three required cells are missing or blank,
`_parse_row` still returns a row whose errors list holds exactly one
human-readable message per blank required field, in check order, and every
other field of the row is still extracted (the first missing field does not
stop extraction or validation). -/
theorem c8_one_error_per_blank_required_field
    (rowf : String → Cell) (cm : List (String × String)) (n : Nat)
    (exhibitor event total : Val)
    (hx : (get_value rowf cm "exhibitor_invite" (some (Val.vs ""))).getD (Val.vs "") = exhibitor)
    (he : (get_value rowf cm "event_name" (some (Val.vs ""))).getD (Val.vs "") = event)
    (ht : (get_value rowf cm "total" (some (Val.vs "0"))).getD (Val.vs "0") = total)
    (hblank : 2 ≤ (if exhibitor.truthy then 0 else 1) + (if event.truthy then 0 else 1)
        + (if !total.truthy || total.eqStrZero then 1 else 0)) :
    (parse_row rowf cm n).errors =
      (if exhibitor.truthy then [] else ["Missing company name"]) ++
      (if event.truthy then [] else ["Missing event name"]) ++
      (if !total.truthy || total.eqStrZero then ["Missing or invalid total"] else []) ∧
    2 ≤ (parse_row rowf cm n).errors.length ∧
    (parse_row rowf cm n).exhibitor_invite = exhibitor ∧
    (parse_row rowf cm n).event_name = event ∧
    (parse_row rowf cm n).total = total.pyStr ∧
    (parse_row rowf cm n).company_name = get_value rowf cm "exhibitor_invite" none ∧
    (parse_row rowf cm n).official_address = get_value rowf cm "official_address" none ∧
    (parse_row rowf cm n).row_number = n := by
  by_cases h1 : exhibitor.truthy <;> by_cases h2 : event.truthy <;>
    by_cases h3 : (!total.truthy || total.eqStrZero) = true <;>
      simp [h1, h2, h3] at hblank ⊢ <;>
        simp [parse_row, ExcelRow.add_error, hx, he, ht, h1, h2, h3]

/-- C8 witness: blank company and missing total, event present — both errors
are collected on the one row. -/
theorem c8_one_error_per_blank_required_field_witness :
    (2 ≤ (if (Val.vs "").truthy then 0 else 1) + (if (Val.vs "ASCO 2025").truthy then 0 else 1)
      + (if !(Val.vs "0").truthy || (Val.vs "0").eqStrZero then 1 else 0)) ∧
    (parse_row rowfBlank cmPlain 2).errors =
      (if (Val.vs "").truthy then [] else ["Missing company name"]) ++
      (if (Val.vs "ASCO 2025").truthy then [] else ["Missing event name"]) ++
      (if !(Val.vs "0").truthy || (Val.vs "0").eqStrZero
        then ["Missing or invalid total"] else []) :=
  ⟨by decide, (c8_one_error_per_blank_required_field rowfBlank cmPlain 2
    (Val.vs "") (Val.vs "ASCO 2025") (Val.vs "0") rfl rfl rfl (by decide)).1⟩

/-! ### C9 -/

/-- C9 is false as stated: on a row whose event text is empty, `match_events`
appends "No event name provided", not "Could not match event: <text>" —
the error the claim prescribes never appears. -/
theorem c9_counterexample_empty_text_message :
    match_events (fun _ _ => none) [] [c9row] =
      [{ c9row with errors := ["No event name provided"] }] ∧
    ("Could not match event: " ++ c9row.event_name.pyStr) ∉
      (match_events (fun _ _ => none) [] [c9row]).flatMap (fun r => r.errors) ∧
    "No event name provided" ≠ "Could not match event: " ++ c9row.event_name.pyStr := by
  decide

/-- C9 (amended): `match_events` maps its per-row body over the rows; a row
with empty event text gets the error "No event name provided" appended and its
`matched_event` stays unset, while a row with non-empty text for which the
matcher clears no candidate gets "Could not match event: <text>" appended and
its `matched_event` stays unset. -/
theorem c9_unmatched_rows_get_error_and_stay_unset
    (find : Val → List CanonicalEvent → Option CanonicalEvent)
    (events : List CanonicalEvent) (rows : List ExcelRow) (r : ExcelRow)
    (hm : r.matched_event = none) :
    match_events find events rows = rows.map (match_row find events) ∧
    (r.event_name.truthy = false →
      (match_row find events r).matched_event = none ∧
      (match_row find events r).errors = r.errors ++ ["No event name provided"]) ∧
    (r.event_name.truthy = true → find r.event_name events = none →
      (match_row find events r).matched_event = none ∧
      (match_row find events r).errors =
        r.errors ++ ["Could not match event: " ++ r.event_name.pyStr]) := by
  refine ⟨rfl, ?_, ?_⟩
  · intro hempty
    simp [match_row, hempty, ExcelRow.add_error, hm]
  · intro htruthy hfind
    simp [match_row, htruthy, hfind, ExcelRow.add_error, hm]

/-- C9 witness: the empty-text row gets "No event name provided"; the
unmatchable non-empty row gets "Could not match event: Mystery Meet"; both
stay unmatched. -/
theorem c9_unmatched_rows_get_error_and_stay_unset_witness :
    ((match_row (fun _ _ => none) [] c9row).matched_event = none ∧
      (match_row (fun _ _ => none) [] c9row).errors =
        c9row.errors ++ ["No event name provided"]) ∧
    ((match_row (fun _ _ => none) [] c9row2).matched_event = none ∧
      (match_row (fun _ _ => none) [] c9row2).errors =
        c9row2.errors ++ ["Could not match event: " ++ c9row2.event_name.pyStr]) :=
  ⟨(c9_unmatched_rows_get_error_and_stay_unset (fun _ _ => none) [] [c9row] c9row
      rfl).2.1 (by decide),
   (c9_unmatched_rows_get_error_and_stay_unset (fun _ _ => none) [] [c9row2] c9row2
      rfl).2.2 (by decide) rfl⟩

/-! ### C4 -/

/-- C4 is false as stated: a row whose total cell holds "abc" (non-empty, no
digits) leaves `_parse_row` with an empty errors list — normalization records
no row validation error for the malformed total. -/
theorem c4_counterexample_digitless_total_passes_normalization :
    (parse_row rowfAbc cmPlain 2).errors = [] ∧
    (parse_row rowfAbc cmPlain 2).total = "abc" := by
  decide

/-- C4 (amended): a non-empty total different from "0" never triggers the
normalization error (it is flagged only when missing, blank or exactly "0");
when it also has no extractable digits, numeric extraction (modelled from the
spec) fails, so the batch step fails the row with a row-local
"Generation failed: could not convert string to float" error and no archive
entries — the malformed total is still never silently turned into zero, but
the failure is a generation-time error, not a normalization-time one. -/
theorem c4_digitless_total_fails_at_generation
    (rowf : String → Cell) (cm : List (String × String)) (n : Nat) (s : String)
    (ht : (get_value rowf cm "total" (some (Val.vs "0"))).getD (Val.vs "0") = Val.vs s)
    (hne : s.data.isEmpty = false) (hnz : s ≠ "0") :
    "Missing or invalid total" ∉ (parse_row rowf cm n).errors ∧
    (parse_row rowf cm n).total = s ∧
    (s.data.any Char.isDigit = false → get_total_amount s = none) ∧
    (∀ gen sigOf dt sk (r : ExcelRow) (me : MatchedEvent),
      s.data.any Char.isDigit = false → r.errors = [] → r.matched_event = some me →
      r.total = s →
      processRow gen sigOf dt sk r =
        ([], 0, 1, r.add_error ("Generation failed: " ++ totalValueError s))) := by
  have hnodigits : ∀ (hd : s.data.any Char.isDigit = false), get_total_amount s = none := by
    intro hd
    have hfilter : (s.data.filter (fun c => c.isDigit || c == '.')).any Char.isDigit
        = false := by
      cases hh : (s.data.filter (fun c => c.isDigit || c == '.')).any Char.isDigit
      · rfl
      · exfalso
        obtain ⟨c, hc, hcd⟩ := List.any_eq_true.mp hh
        have hmem := (List.mem_filter.mp hc).1
        have : s.data.any Char.isDigit = true := List.any_eq_true.mpr ⟨c, hmem, hcd⟩
        rw [hd] at this
        exact Bool.false_ne_true this
    simp [get_total_amount, hfilter]
  refine ⟨?_, ?_, hnodigits, ?_⟩
  · have htr : (Val.vs s).truthy = true := by simp [Val.truthy, hne]
    have hz : (Val.vs s).eqStrZero = false := by
      simp [Val.eqStrZero]
      exact hnz
    simp only [parse_row, ht, htr, hz, Bool.not_true, Bool.false_or, if_false,
      Bool.false_eq_true]
    by_cases h1 : ((get_value rowf cm "exhibitor_invite" (some (Val.vs ""))).getD
        (Val.vs "")).truthy <;>
      by_cases h2 : ((get_value rowf cm "event_name" (some (Val.vs ""))).getD
          (Val.vs "")).truthy <;>
        simp [h1, h2, ExcelRow.add_error]
  · have htr : (Val.vs s).truthy = true := by simp [Val.truthy, hne]
    have hz : (Val.vs s).eqStrZero = false := by
      simp [Val.eqStrZero]
      exact hnz
    simp only [parse_row, ht, htr, hz, Bool.not_true, Bool.false_or, if_false,
      Bool.false_eq_true]
    by_cases h1 : ((get_value rowf cm "exhibitor_invite" (some (Val.vs ""))).getD
        (Val.vs "")).truthy <;>
      by_cases h2 : ((get_value rowf cm "event_name" (some (Val.vs ""))).getD
          (Val.vs "")).truthy <;>
        simp [h1, h2, ExcelRow.add_error, Val.pyStr]
  · intro gen sigOf dt sk r me hd herr hme htot
    have hhe : r.has_errors = false := by simp [ExcelRow.has_errors, herr]
    have htry : tryRow gen sigOf dt sk r me =
        .error (totalValueError s) := by
      simp [tryRow, htot, hnodigits hd, Bind.bind, Except.bind]
    simp [processRow, hhe, hme, htry]

/-- C4 witness: the "abc" total passes normalization, numeric extraction
fails on it, and the batch step fails the matched row with the row-local
conversion error and produces no archive entries. -/
theorem c4_digitless_total_fails_at_generation_witness :
    "Missing or invalid total" ∉ (parse_row rowfAbc cmPlain 2).errors ∧
    get_total_amount "abc" = none ∧
    processRow genOk sigSarah "LOR" "sarah" c4genrow =
      ([], 0, 1, c4genrow.add_error ("Generation failed: " ++ totalValueError "abc")) := by
  have H := c4_digitless_total_fails_at_generation rowfAbc cmPlain 2 "abc"
    rfl rfl (by decide)
  exact ⟨H.1, H.2.2.1 rfl,
    H.2.2.2 genOk sigSarah "LOR" "sarah" c4genrow _ rfl rfl rfl rfl⟩

/-! ### C5 -/

/-- C5: an error-free matched row processed as LOA whose address is absent or
empty fails payload resolution with a row-local error — the row is counted as
a failure, no archive entries are written, the "Generation failed: Company
address is required for LOA documents" error is appended to the row, and the
rendering collaborator is never consulted (the result does not depend on it). -/
theorem c5_loa_requires_nonempty_address
    (gen : String → DocumentPayload → String → Except String (String × String))
    (sigOf : String → Signatory) (sk : String) (r : ExcelRow) (me : MatchedEvent)
    (q : ℚ) (herr : r.errors = []) (hme : r.matched_event = some me)
    (haddr : optTruthy r.official_address = false)
    (htot : get_total_amount r.total = some q) :
    processRow gen sigOf "LOA" sk r =
      ([], 0, 1, r.add_error ("Generation failed: " ++ loaAddressError)) := by
  have hpy : pyOr r.official_address (Val.vs "") = Val.vs "" := by
    cases ha : r.official_address with
    | none => rfl
    | some v =>
      rw [ha] at haddr
      simp only [optTruthy] at haddr
      simp [pyOr, haddr]
  have hhe : r.has_errors = false := by simp [ExcelRow.has_errors, herr]
  have htry : tryRow gen sigOf "LOA" sk r me = .error loaAddressError := by
    simp [tryRow, htot, hpy, DocumentPayload.make, Val.truthy, Bind.bind, Except.bind]
  simp [processRow, hhe, hme, htry]

/-- C5 witness: the concrete LOA row without an address fails resolution with
the address error and contributes nothing to the archive. -/
theorem c5_loa_requires_nonempty_address_witness :
    c5row.errors = [] ∧ optTruthy c5row.official_address = false ∧
    processRow genOk sigSarah "LOA" "sarah" c5row =
      ([], 0, 1, c5row.add_error ("Generation failed: " ++ loaAddressError)) :=
  ⟨rfl, rfl, c5_loa_requires_nonempty_address genOk sigSarah "sarah" c5row _
    ((5000 : ℕ) : ℚ) rfl rfl rfl rfl⟩

/-! ### C10 -/

/-- The row loop accounts every record either as a parsed row or an error. -/
lemma parseRowsLoop_length (rowParse : RowParser) (hs : List String)
    (cm : List (String × String)) :
    ∀ (recs : List (List Cell)) (idx : Nat),
      (parseRowsLoop rowParse hs cm idx recs).1.length +
        (parseRowsLoop rowParse hs cm idx recs).2.length = recs.length := by
  intro recs
  induction recs with
  | nil => intro idx; simp [parseRowsLoop]
  | cons cs rest ih =>
    intro idx
    simp only [parseRowsLoop]
    cases rowParse (seriesOf hs cs) cm (idx + 2) with
    | ok r => simp only [List.length_cons]; have := ih (idx + 1); omega
    | error e => simp only [List.length_cons]; have := ih (idx + 1); omega

/-- C10: ingestion never propagates a failure — for every row parser, a file
read failure becomes the single "Failed to read Excel file" error string; the
returned row list never exceeds the number of data records; and when the
required columns resolve, every record is accounted for either as a returned
row or as a "Row n: ..." error string (so a record whose parsing fails is
omitted and the row list is shorter). -/
theorem c10_ingestion_total_and_per_row_error_capture (rowParse : RowParser) :
    (∀ e, parse_excel_file rowParse (Except.error e) =
      ([], ["Failed to read Excel file: " ++ e])) ∧
    (∀ t : Table, (parse_excel_file rowParse (Except.ok t)).1.length ≤
      t.records.length) ∧
    (∀ t : Table, (requiredFields.filter
        (fun c => ((build_column_map (t.headers.map normHeader)).lookup c).isNone)).isEmpty
          = true →
      (parse_excel_file rowParse (Except.ok t)).1.length +
        (parse_excel_file rowParse (Except.ok t)).2.length = t.records.length) := by
  refine ⟨fun e => rfl, ?_, ?_⟩
  · intro t
    simp only [parse_excel_file]
    cases hmiss : (requiredFields.filter
        (fun c => ((build_column_map (t.headers.map normHeader)).lookup c).isNone)).isEmpty
    · simp
    · simp only [if_true]
      have := parseRowsLoop_length rowParse (t.headers.map normHeader)
        (build_column_map (t.headers.map normHeader)) t.records 0
      omega
  · intro t hmiss
    simp only [parse_excel_file, hmiss, if_true]
    exact parseRowsLoop_length rowParse (t.headers.map normHeader)
      (build_column_map (t.headers.map normHeader)) t.records 0

/-- C10 witness: with a parser failing on Excel row 2, the two-record table
yields one row and the error "Row 2: boom" — one row fewer than the data
lines, with the failure reported as a string. -/
theorem c10_ingestion_total_and_per_row_error_capture_witness :
    ((requiredFields.filter
      (fun c => ((build_column_map (tTwoRows.headers.map normHeader)).lookup c).isNone)).isEmpty
        = true) ∧
    (parse_excel_file rpFail (Except.ok tTwoRows)).1.length +
      (parse_excel_file rpFail (Except.ok tTwoRows)).2.length = tTwoRows.records.length ∧
    (parse_excel_file rpFail (Except.ok tTwoRows)).1.length = 1 ∧
    (parse_excel_file rpFail (Except.ok tTwoRows)).2 = ["Row 2: boom"] ∧
    tTwoRows.records.length = 2 :=
  ⟨by decide,
   (c10_ingestion_total_and_per_row_error_capture rpFail).2.2 tTwoRows (by decide),
   by decide, by decide, by decide⟩

end ExcelPipeline
